import Mathlib

/-!
Shallow embedding of the stream-resolution subsystem of the `music_services`
repository: the circuit breaker (`app/core/circuit_breaker.py`), the cache
lookup and stream-resolution logic of `StreamService`
(`app/services/stream_service.py`), and the batch enrichment pipeline.

Conventions of the embedding:
* Clock readings (`time.time()`) are passed explicitly as an `Int` argument
  `now`; stateful methods become pure functions returning the new state.
* Python truthiness is modelled explicitly where the source relies on it:
  `None`/`0` timestamps are falsy (`truthyTime`), `None`/`""` strings are
  falsy (`truthyStr`).
* Fallible paths return `Except`/`Option`.
-/

set_option maxHeartbeats 1000000

namespace MusicServices

/-- Python truthiness of an optional timestamp: `None` and `0` are falsy
(the source guards `if self.opened_at and ...`). -/
def truthyTime : Option Int → Bool
  | none => false
  | some t => t != 0

/-- Python truthiness of an optional string: `None` and `""` are falsy. -/
def truthyStr : Option String → Bool
  | none => false
  | some s => !s.data.isEmpty

/-- Python `a or b` on two optional strings: yields `a` when `a` is truthy,
otherwise `b` (models `item.get('videoId') or item.get('video_id')`). -/
def pyOr (a b : Option String) : Option String :=
  if truthyStr a then a else b

/-- Test whether `pre` is a prefix of `s`, over character lists. -/
def isPrefixChars : List Char → List Char → Bool
  | [], _ => true
  | _ :: _, [] => false
  | a :: as, b :: bs => a == b && isPrefixChars as bs

/-- Test whether `sub` occurs as a contiguous substring of `s`, over
character lists. -/
def containsSubChars (sub : List Char) : List Char → Bool
  | [] => sub.isEmpty
  | c :: rest => isPrefixChars sub (c :: rest) || containsSubChars sub rest

/-- Python `sub in s` on strings. -/
def strContains (s sub : String) : Bool :=
  containsSubChars sub.data s.data

/-- ASCII lowercasing of a string, modelling Python `str.lower()` on the
ASCII keyword/message strings involved. -/
def lowerStr (s : String) : String :=
  ⟨s.data.map Char.toLower⟩

/-! ### Circuit breaker (`app/core/circuit_breaker.py`) -/

/-- The three circuit states of `CircuitState`. -/
inductive CircuitState
  | Closed
  | Open
  | HalfOpen
  deriving DecidableEq, Repr

/-- The `.value` string of a `CircuitState` member. -/
def CircuitState.value : CircuitState → String
  | .Closed => "closed"
  | .Open => "open"
  | .HalfOpen => "half_open"

/-- State of a `CircuitBreaker` instance (constructor parameters plus the
mutable fields initialised in `__init__`). -/
structure CircuitBreaker where
  failure_threshold : Nat
  timeout : Int
  half_open_timeout : Int
  state : CircuitState
  failure_count : Nat
  last_failure_time : Option Int
  opened_at : Option Int
  half_open_at : Option Int
  deriving DecidableEq, Repr

/-- Embeds `CircuitBreaker.__init__`: starts `CLOSED` with zeroed counters. -/
def CircuitBreaker.init (failure_threshold : Nat) (timeout half_open_timeout : Int) :
    CircuitBreaker :=
  { failure_threshold := failure_threshold
    timeout := timeout
    half_open_timeout := half_open_timeout
    state := .Closed
    failure_count := 0
    last_failure_time := none
    opened_at := none
    half_open_at := none }

/-- Embeds `CircuitBreaker.is_open`, taking the clock reading `now` explicitly.
Returns the boolean result together with the (possibly lazily transitioned)
new state. -/
def CircuitBreaker.is_open (cb : CircuitBreaker) (now : Int) : Bool × CircuitBreaker :=
  match cb.state with
  | .Open =>
    if truthyTime cb.opened_at = true ∧ now - cb.opened_at.getD 0 ≥ cb.timeout then
      (false, { cb with state := .HalfOpen, half_open_at := some now })
    else
      (true, cb)
  | .HalfOpen =>
    if truthyTime cb.half_open_at = true ∧ now - cb.half_open_at.getD 0 ≥ cb.half_open_timeout then
      (false, { cb with state := .Closed, failure_count := 0 })
    else
      (false, cb)
  | .Closed => (false, cb)

/-- Embeds `CircuitBreaker.record_success`. -/
def CircuitBreaker.record_success (cb : CircuitBreaker) : CircuitBreaker :=
  match cb.state with
  | .HalfOpen => { cb with state := .Closed, failure_count := 0, half_open_at := none }
  | .Closed => { cb with failure_count := 0 }
  | .Open => cb

/-- The rate-limit keyword list of `CircuitBreaker.record_failure`. -/
def rate_limit_keywords : List String :=
  ["rate-limit", "rate limit", "rate-limited", "too many requests", "429",
   "resource_exhausted"]

/-- The `is_rate_limit` test of `CircuitBreaker.record_failure`: some keyword
occurs in the lowercased error message. -/
def isRateLimitMessage (error_message : String) : Bool :=
  rate_limit_keywords.any (fun kw => strContains (lowerStr error_message) kw)

/-- Embeds `CircuitBreaker.record_failure`, with the clock reading `now` explicit. -/
def CircuitBreaker.record_failure (cb : CircuitBreaker) (error_message : String)
    (now : Int) : CircuitBreaker :=
  let cb1 := { cb with failure_count := cb.failure_count + 1, last_failure_time := some now }
  if isRateLimitMessage error_message = true ∨ cb1.failure_count ≥ cb1.failure_threshold then
    { cb1 with state := .Open, opened_at := some now, failure_count := 0 }
  else
    cb1

/-- The dictionary returned by `CircuitBreaker.get_status`. -/
structure CircuitStatus where
  state : String
  failure_count : Nat
  remaining_time_seconds : Int
  is_blocked : Bool
  deriving DecidableEq, Repr

/-- Embeds `CircuitBreaker.get_status`: the `state`, `failure_count` and
`remaining_time_seconds` fields are computed from the state before the
`is_open()` call that fills `is_blocked` (Python evaluates the dict literal
left to right). Returns the status together with the state left behind by
the embedded `is_open()` call. -/
def CircuitBreaker.get_status (cb : CircuitBreaker) (now : Int) :
    CircuitStatus × CircuitBreaker :=
  let remaining : Int :=
    if cb.state = .Open ∧ truthyTime cb.opened_at = true then
      max 0 (cb.timeout - (now - cb.opened_at.getD 0))
    else if cb.state = .HalfOpen ∧ truthyTime cb.half_open_at = true then
      max 0 (cb.half_open_timeout - (now - cb.half_open_at.getD 0))
    else 0
  let checked := cb.is_open now
  ({ state := cb.state.value
     failure_count := cb.failure_count
     remaining_time_seconds := remaining
     is_blocked := checked.1 }, checked.2)

/-! ### Stream service (`app/services/stream_service.py`) -/

/-- Embeds `StreamService.METADATA_TTL` (24 hours). -/
def METADATA_TTL : Int := 86400

/-- Embeds `StreamService.STREAM_URL_TTL` (2 hours). -/
def STREAM_URL_TTL : Int := 7200

/-- What the Redis helpers report for one cache key: `has_cached_key`
(`present`), `get_cached_timestamp` (0 when no timestamp is stored) and
`get_cached_value` (`none` when absent). -/
structure KVEntry (α : Type) where
  present : Bool
  timestamp : Int
  value : Option α
  deriving Repr

/-- The metadata dictionary built by `get_stream_url` and stored by
`_cache_metadata`: keys `title`, `artist`, `duration`, `thumbnail`. -/
structure Metadata where
  title : Option String
  artist : String
  duration : Option Int
  thumbnail : Option String
  deriving DecidableEq, Repr

/-- Embeds `StreamService._get_cached_metadata`: key must exist, its timestamp must
be positive and younger than `METADATA_TTL`, and the stored dict must be
truthy. A metadata dict written by `_cache_metadata` always has four keys,
hence is truthy whenever present, so `if cached_data:` is `value` itself. -/
def get_cached_metadata (cache_enabled : Bool) (entry : KVEntry Metadata)
    (now : Int) : Option Metadata :=
  if cache_enabled = false then none
  else if entry.present = false then none
  else if entry.timestamp > 0 ∧ now - entry.timestamp < METADATA_TTL then
    entry.value
  else none

/-- Embeds `StreamService._get_cached_stream_url`: key must exist, its timestamp
must be positive with `elapsed < STREAM_URL_TTL`, and the stored URL must be
a truthy (non-empty) string. -/
def get_cached_stream_url (cache_enabled : Bool) (entry : KVEntry String)
    (now : Int) : Option String :=
  if cache_enabled = false then none
  else if entry.present = false then none
  else if entry.timestamp > 0 then
    if now - entry.timestamp < STREAM_URL_TTL then
      match entry.value with
      | some url => if url.data.isEmpty then none else some url
      | none => none
    else none
  else none

/-- One entry of the extractor's `formats` / `adaptive_formats` lists: the
codec tags may be absent (`f.get('acodec')` is `None`), the `url` field is
accessed directly (`f['url']`). -/
structure AVFormat where
  acodec : Option String
  vcodec : Option String
  url : String
  deriving DecidableEq, Repr

/-- The extractor's info dictionary, restricted to the keys
`get_stream_url` reads. `formats`/`adaptive_formats` are `none` when the key
is absent or `None` (the source normalises with `info.get(...) or []`). -/
structure ExtractInfo where
  formats : Option (List AVFormat)
  adaptive_formats : Option (List AVFormat)
  url : Option String
  title : Option String
  artist : Option String
  uploader : Option String
  duration : Option Int
  thumbnail : Option String
  deriving Repr

/-- Outcome of one `extract_info` invocation: either the info dictionary or
an exception carrying its string message. -/
inductive ExtractResult
  | ok (info : ExtractInfo)
  | raised (message : String)
  deriving Repr

/-- The per-format test of the selection loops:
`f.get('acodec') != 'none' and f.get('vcodec') == 'none'` (an absent
`acodec` compares unequal to `'none'`, hence counts as audio). -/
def isAudioOnly (f : AVFormat) : Bool :=
  f.acodec != some "none" && f.vcodec == some "none"

/-- One selection loop: url of the first entry satisfying `isAudioOnly`. -/
def pickAudioFromFormats (fs : List AVFormat) : Option String :=
  (fs.find? isAudioOnly).map (fun f => f.url)

/-- The chained `audio_url` selection of `get_stream_url`: primary
`formats`, then `adaptive_formats` when the previous result is falsy, then
a truthy top-level `info['url']`. The result may still be a falsy
(`none`/empty) value, which the caller rejects. -/
def selectAudioUrl (info : ExtractInfo) : Option String :=
  let audio0 := pickAudioFromFormats (info.formats.getD [])
  let audio1 :=
    if truthyStr audio0 = true then audio0
    else pickAudioFromFormats (info.adaptive_formats.getD [])
  if truthyStr audio1 = true then audio1
  else if truthyStr info.url = true then info.url
  else audio1

/-- The metadata dictionary assembled after a successful extraction:
`info.get('artist', info.get('uploader', 'Unknown Artist'))`. -/
def metadataOf (info : ExtractInfo) : Metadata :=
  { title := info.title
    artist := info.artist.getD (info.uploader.getD "Unknown Artist")
    duration := info.duration
    thumbnail := info.thumbnail }

/-- The error taxonomy of `get_stream_url`: `CircuitBreakerError` (with
`retry_after` and `state` details), `RateLimitError` (with `retry_after`),
`ExternalServiceError`. -/
inductive StreamError
  | circuitBreaker (retry_after : Int) (state : String)
  | rateLimit (retry_after : Int)
  | externalService
  deriving DecidableEq, Repr

/-- The success payload of `get_stream_url`: the metadata keys (absent in
the URL-only cached case), `url` and `from_cache`. -/
structure ResolvedStream where
  metadata : Option Metadata
  url : String
  from_cache : Bool
  deriving DecidableEq, Repr

/-- The mutable state `get_stream_url` touches: the shared
`youtube_stream_circuit` breaker and the two Redis namespaces (keyed by
video id). `extractorCalls` counts `extract_info` invocations and
`failuresRecorded` counts `record_failure` calls — ghost instrumentation
for the zero-extractor-call and failure-recording claims. -/
structure World where
  breaker : CircuitBreaker
  metaStore : String → KVEntry Metadata
  urlStore : String → KVEntry String
  extractorCalls : Nat
  failuresRecorded : Nat

/-- Embeds `set_cached_value` on one key: stores the value and its write
timestamp. -/
def storeSet {α : Type} (store : String → KVEntry α) (key : String) (v : α)
    (now : Int) : String → KVEntry α :=
  fun k => if k = key then { present := true, timestamp := now, value := some v } else store k

/-- The rate-limit keyword list of `get_stream_url`'s exception handler (a
superset of the breaker's list; the extra entries contain `rate-limit`). -/
def service_rate_limit_keywords : List String :=
  ["rate-limit", "rate limit", "rate-limited", "too many requests", "429",
   "resource_exhausted", "session has been rate-limited"]

/-- The `is_rate_limit` classification inside `get_stream_url`'s generic
exception handler. -/
def isRateLimitMessageService (error_message : String) : Bool :=
  service_rate_limit_keywords.any (fun kw => strContains (lowerStr error_message) kw)

/-- The fresh-extraction part of `StreamService.get_stream_url` (the `try`
block from the `extract_info` call on, plus the generic exception handler):
invoke the extractor, select an audio url, on success record a breaker
success and cache metadata and url, on a rate-limit-classified exception
record a breaker failure and raise `RateLimitError`, otherwise raise
`ExternalServiceError`. -/
def fetchFresh (cache_enabled : Bool) (extract : String → ExtractResult)
    (video_id : String) (now : Int) (w : World) :
    Except StreamError ResolvedStream × World :=
  let w2 : World := { w with extractorCalls := w.extractorCalls + 1 }
  match extract video_id with
  | .raised msg =>
    if isRateLimitMessageService msg = true then
      let b2 := w2.breaker.record_failure msg now
      let st := b2.get_status now
      (Except.error (.rateLimit st.1.remaining_time_seconds),
       { w2 with breaker := st.2, failuresRecorded := w2.failuresRecorded + 1 })
    else
      (Except.error .externalService, w2)
  | .ok info =>
    match selectAudioUrl info with
    | none => (Except.error .externalService, w2)
    | some u =>
      if u.data.isEmpty then (Except.error .externalService, w2)
      else
        let md := metadataOf info
        (Except.ok { metadata := some md, url := u, from_cache := false },
         { w2 with
           breaker := w2.breaker.record_success
           metaStore :=
             if cache_enabled = true then storeSet w2.metaStore video_id md now
             else w2.metaStore
           urlStore :=
             if cache_enabled = true then storeSet w2.urlStore video_id u now
             else w2.urlStore })

/-- Embeds `StreamService.get_stream_url`: circuit-breaker gate, then cache
lookups (unless `bypass_cache`), then fresh extraction. -/
def get_stream_url (cache_enabled : Bool) (extract : String → ExtractResult)
    (video_id : String) (bypass_cache : Bool) (now : Int) (w : World) :
    Except StreamError ResolvedStream × World :=
  let checked := w.breaker.is_open now
  let w1 : World := { w with breaker := checked.2 }
  if checked.1 = true then
    let st := checked.2.get_status now
    (Except.error (.circuitBreaker st.1.remaining_time_seconds st.1.state),
     { w1 with breaker := st.2 })
  else
    let cached_metadata :=
      if bypass_cache = true then none
      else get_cached_metadata cache_enabled (w1.metaStore video_id) now
    let cached_stream_url :=
      if bypass_cache = true then none
      else get_cached_stream_url cache_enabled (w1.urlStore video_id) now
    match cached_metadata, cached_stream_url with
    | some md, some u =>
      (Except.ok { metadata := some md, url := u, from_cache := true }, w1)
    | none, some u =>
      (Except.ok { metadata := none, url := u, from_cache := true }, w1)
    | _, none => fetchFresh cache_enabled extract video_id now w1

/-! ### Thumbnails and batch enrichment -/

/-- One entry of an item's `thumbnails` list. Entries are modelled as
dictionaries (`url`/`width`/`height`, each possibly absent): a bare-string
entry would already raise inside the `sorted(...)` key function of
`_get_best_thumbnail`, so the string branch of the third lookup is dead. -/
structure ThumbObj where
  url : Option String
  width : Option Int
  height : Option Int
  deriving DecidableEq, Repr

/-- The sort key of `_get_best_thumbnail`:
`x.get('width', 0) * x.get('height', 0)`. -/
def thumbArea (t : ThumbObj) : Int :=
  t.width.getD 0 * t.height.getD 0

/-- First element of maximal `thumbArea`: the head of Python's stable
`sorted(thumbnails, key=area, reverse=True)` (ties keep original order, so
the head is the first entry attaining the maximum). -/
def firstMaxThumb : List ThumbObj → Option ThumbObj
  | [] => none
  | t :: ts =>
    match firstMaxThumb ts with
    | none => some t
    | some u => if thumbArea u > thumbArea t then some u else some t

/-- An enrichment item: the fields the pipeline reads or writes, plus an
opaque bag `rest` of untouched fields. `thumbnail = none` models both an
absent key and a `None` value (the source treats them alike via `get` and
truthiness); `stream_url = none` models an absent key. -/
structure Item where
  videoId : Option String
  video_id : Option String
  thumbnails : Option (List ThumbObj)
  thumbnail : Option String
  stream_url : Option String
  rest : List (String × String)
  deriving DecidableEq, Repr

/-- The identifier-derived fallback of `_get_best_thumbnail`:
`item.get('videoId') or item.get('video_id')`, and when truthy the
deterministic `img.youtube.com` URL, else `None`. -/
def fallbackThumbFromId (item : Item) : Option String :=
  match pyOr item.videoId item.video_id with
  | some v =>
    if v.data.isEmpty then none
    else some ("https://img.youtube.com/vi/" ++ v ++ "/mqdefault.jpg")
  | none => none

/-- Embeds `StreamService._get_best_thumbnail`: (1) url of the best-area entry of a
non-empty `thumbnails` list, when truthy; (2) a truthy bare `thumbnail`
string; (3) the first list entry's url, when truthy; (4) the
identifier-derived URL; else `None`. -/
def get_best_thumbnail (item : Item) : Option String :=
  let thumbnails := item.thumbnails.getD []
  let best : Option String :=
    if thumbnails.isEmpty = false then
      match firstMaxThumb thumbnails with
      | some t => if truthyStr t.url = true then t.url else none
      | none => none
    else none
  match best with
  | some u => some u
  | none =>
    if truthyStr item.thumbnail = true then item.thumbnail
    else
      match thumbnails with
      | t :: _ => if truthyStr t.url = true then t.url else fallbackThumbFromId item
      | [] => fallbackThumbFromId item

/-- Step 1 of `enrich_items_with_streams`: copy the item and overwrite its
`thumbnail` with the best thumbnail of the original item. -/
def setThumb (item : Item) : Item :=
  { item with thumbnail := get_best_thumbnail item }

/-- The truthy identifier of an item (`item.get('videoId') or
item.get('video_id')` when truthy), as used both to collect `video_ids` and
in the final attachment loop. -/
def truthyId (item : Item) : Option String :=
  match pyOr item.videoId item.video_id with
  | some v => if v.data.isEmpty then none else some v
  | none => none

/-- Embeds `StreamService.enrich_items_with_streams`, with the per-identifier
resolution outcome abstracted as `res : String → Option String`:
`_safe_get_stream_url` never raises (it swallows every exception into `{}`),
so each gathered result is a dict, and `res vid` is its `url` value when
present. The final dict comprehension keeps only truthy urls. The function
is total: the pipeline never raises. -/
def enrich_items_with_streams (res : String → Option String)
    (items : List Item) (include_stream_urls : Bool) : List Item :=
  if items.isEmpty = true then []
  else
    let items_with_thumbnails := items.map setThumb
    if include_stream_urls = false then items_with_thumbnails
    else
      let video_ids := items_with_thumbnails.filterMap truthyId
      if video_ids.isEmpty = true then items_with_thumbnails
      else
        let video_id_to_stream : String → Option String := fun vid =>
          if vid ∈ video_ids then
            match res vid with
            | some u => if u.data.isEmpty then none else some u
            | none => none
          else none
        items_with_thumbnails.map (fun item =>
          let enriched :=
            match truthyId item with
            | some v =>
              match video_id_to_stream v with
              | some u => { item with stream_url := some u }
              | none => item
            | none => item
          if enriched.thumbnail = none then
            { enriched with thumbnail := get_best_thumbnail item }
          else enriched)

/-- Per-item enrichment as the specification describes it: attach the best
thumbnail, and attach `stream_url` exactly when the item has a truthy
identifier whose resolution yielded a truthy url; every other field is kept.
Stated from the spec's words for the refinement claim C7. -/
def enrichSpec (res : String → Option String) (item : Item) : Item :=
  { item with
    thumbnail := get_best_thumbnail item
    stream_url :=
      match truthyId item with
      | some v =>
        match res v with
        | some u => if u.data.isEmpty then item.stream_url else some u
        | none => item.stream_url
      | none => item.stream_url }

/-! ### Helper lemmas -/

/-- When `is_open` answers `true` the breaker is left untouched: the only
`true` branch is an `OPEN` breaker whose timeout has not elapsed. -/
lemma is_open_true_frame (cb : CircuitBreaker) (now : Int)
    (h : (cb.is_open now).1 = true) :
    (cb.is_open now).2 = cb ∧ cb.state = CircuitState.Open ∧
      ¬(truthyTime cb.opened_at = true ∧ now - cb.opened_at.getD 0 ≥ cb.timeout) := by
  unfold CircuitBreaker.is_open at h ⊢
  rcases hs : cb.state with _ | _ | _ <;> rw [hs] at h
  · simp at h
  · by_cases hcond : truthyTime cb.opened_at = true ∧ now - cb.opened_at.getD 0 ≥ cb.timeout
    · simp [hcond] at h
    · simp [hcond]
  · by_cases hcond : truthyTime cb.half_open_at = true
        ∧ now - cb.half_open_at.getD 0 ≥ cb.half_open_timeout
    · simp [hcond] at h
    · simp [hcond] at h

/-- Calling `get_status` on a blocked breaker leaves it untouched (its embedded
`is_open` call takes the same non-mutating branch). -/
lemma get_status_frame_of_blocked (cb : CircuitBreaker) (now : Int)
    (h : (cb.is_open now).1 = true) :
    (cb.get_status now).2 = cb := by
  unfold CircuitBreaker.get_status
  exact (is_open_true_frame cb now h).1

/-- A sample Half-Open breaker (threshold 2, the production timeouts),
reachable by opening at time 100 and probing at time 700. -/
def halfOpenSample : CircuitBreaker :=
  { failure_threshold := 2
    timeout := 600
    half_open_timeout := 60
    state := .HalfOpen
    failure_count := 0
    last_failure_time := some 100
    opened_at := some 100
    half_open_at := some 700 }

/-! ### Claims -/

/-- C2: starting Closed with `failure_threshold = 2`, `timeout = 0`,
`half_open_timeout = 0`, two recorded non-rate-limit failures put the
breaker in Open (with `opened_at` set and `failure_count` reset to 0); the
next `is_open()` query returns `false` and moves the state to Half-Open; a
success recorded in Half-Open moves it to Closed with `failure_count = 0`.
A single recorded failure whose message contains a rate-limit signature
moves Closed to Open regardless of `failure_threshold`. -/
theorem circuit_breaker_lifecycle (m1 m2 : String) (t1 t2 t3 : Int)
    (h1 : isRateLimitMessage m1 = false) (h2 : isRateLimitMessage m2 = false)
    (ht2 : t2 ≠ 0) (ht3 : t2 ≤ t3) :
    (((CircuitBreaker.init 2 0 0).record_failure m1 t1).state = CircuitState.Closed
      ∧ ((CircuitBreaker.init 2 0 0).record_failure m1 t1).failure_count = 1)
    ∧ ((((CircuitBreaker.init 2 0 0).record_failure m1 t1).record_failure m2 t2).state
        = CircuitState.Open
      ∧ (((CircuitBreaker.init 2 0 0).record_failure m1 t1).record_failure m2 t2).opened_at
        = some t2
      ∧ (((CircuitBreaker.init 2 0 0).record_failure m1 t1).record_failure m2 t2).failure_count
        = 0)
    ∧ (((((CircuitBreaker.init 2 0 0).record_failure m1 t1).record_failure m2 t2).is_open t3).1
        = false
      ∧ ((((CircuitBreaker.init 2 0 0).record_failure m1 t1).record_failure m2 t2).is_open t3).2.state
        = CircuitState.HalfOpen
      ∧ ((((CircuitBreaker.init 2 0 0).record_failure m1 t1).record_failure m2 t2).is_open t3).2.half_open_at
        = some t3)
    ∧ (((((CircuitBreaker.init 2 0 0).record_failure m1 t1).record_failure m2 t2).is_open t3).2.record_success.state
        = CircuitState.Closed
      ∧ ((((CircuitBreaker.init 2 0 0).record_failure m1 t1).record_failure m2 t2).is_open t3).2.record_success.failure_count
        = 0)
    ∧ (∀ (cb : CircuitBreaker) (m : String) (t : Int),
        cb.state = CircuitState.Closed → isRateLimitMessage m = true →
        (cb.record_failure m t).state = CircuitState.Open
        ∧ (cb.record_failure m t).opened_at = some t
        ∧ (cb.record_failure m t).failure_count = 0) := by
  have hb1 : (CircuitBreaker.init 2 0 0).record_failure m1 t1
      = { CircuitBreaker.init 2 0 0 with failure_count := 1, last_failure_time := some t1 } := by
    unfold CircuitBreaker.record_failure
    simp [h1, CircuitBreaker.init]
  have hb2 : ({ CircuitBreaker.init 2 0 0 with
        failure_count := 1, last_failure_time := some t1 } : CircuitBreaker).record_failure m2 t2
      = { CircuitBreaker.init 2 0 0 with
          state := .Open, failure_count := 0, last_failure_time := some t2,
          opened_at := some t2 } := by
    unfold CircuitBreaker.record_failure
    simp [h2, CircuitBreaker.init]
  have hb3 : (({ CircuitBreaker.init 2 0 0 with
        state := .Open, failure_count := 0, last_failure_time := some t2,
        opened_at := some t2 } : CircuitBreaker).is_open t3)
      = (false, { CircuitBreaker.init 2 0 0 with
          state := .HalfOpen, failure_count := 0, last_failure_time := some t2,
          opened_at := some t2, half_open_at := some t3 }) := by
    unfold CircuitBreaker.is_open
    simp only [CircuitBreaker.init]
    rw [if_pos]
    constructor
    · simp [truthyTime, ht2]
    · simp
      omega
  refine ⟨?_, ?_, ?_, ?_, ?_⟩
  · rw [hb1]
    simp [CircuitBreaker.init]
  · rw [hb1, hb2]
    simp [CircuitBreaker.init]
  · rw [hb1, hb2, hb3]
    simp [CircuitBreaker.init]
  · rw [hb1, hb2, hb3]
    simp [CircuitBreaker.init, CircuitBreaker.record_success]
  · intro cb m t _ hm
    unfold CircuitBreaker.record_failure
    simp [hm]

/-- C2 witness: the lifecycle at messages "Error 1"/"Error 2", times
1, 2, 3, and the rate-limit part at threshold 5 with message "HTTP 429". -/
theorem circuit_breaker_lifecycle_witness :
    (((CircuitBreaker.init 2 0 0).record_failure "Error 1" 1).record_failure "Error 2" 2).state
      = CircuitState.Open
    ∧ (((((CircuitBreaker.init 2 0 0).record_failure "Error 1" 1).record_failure "Error 2" 2).is_open 3).2.record_success.state
      = CircuitState.Closed)
    ∧ ((CircuitBreaker.init 5 0 0).record_failure "HTTP 429" 7).state = CircuitState.Open := by
  have h := circuit_breaker_lifecycle "Error 1" "Error 2" 1 2 3
    (by decide) (by decide) (by decide) (by decide)
  exact ⟨h.2.1.1, h.2.2.2.1.1,
    (h.2.2.2.2 (CircuitBreaker.init 5 0 0) "HTTP 429" 7 rfl (by decide)).1⟩

/-- C3 counterexample: on a Half-Open breaker with `failure_threshold = 2`
and `failure_count = 0`, recording the non-rate-limit failure
"network error" leaves the breaker in Half-Open — it does not move to Open
as the claim states (`record_failure` never inspects the Half-Open state;
it only opens on a rate-limit match or on reaching the threshold). -/
theorem half_open_failure_keeps_half_open :
    (halfOpenSample.record_failure "network error" 710).state = CircuitState.HalfOpen
    ∧ (halfOpenSample.record_failure "network error" 710).state ≠ CircuitState.Open := by
  constructor
  · decide
  · decide

/-- C3 amended: recording a failure while Half-Open moves the breaker to
Open (with `opened_at = now` and `failure_count` reset to 0) exactly when
the message matches a rate-limit signature or the incremented
`failure_count` reaches `failure_threshold`; otherwise the breaker stays
Half-Open with the incremented `failure_count`. -/
theorem record_failure_in_half_open (cb : CircuitBreaker) (msg : String) (now : Int)
    (h : cb.state = CircuitState.HalfOpen) :
    ((isRateLimitMessage msg = true ∨ cb.failure_count + 1 ≥ cb.failure_threshold) →
      (cb.record_failure msg now).state = CircuitState.Open
      ∧ (cb.record_failure msg now).opened_at = some now
      ∧ (cb.record_failure msg now).failure_count = 0)
    ∧ (¬(isRateLimitMessage msg = true ∨ cb.failure_count + 1 ≥ cb.failure_threshold) →
      (cb.record_failure msg now).state = CircuitState.HalfOpen
      ∧ (cb.record_failure msg now).failure_count = cb.failure_count + 1
      ∧ (cb.record_failure msg now).half_open_at = cb.half_open_at) := by
  unfold CircuitBreaker.record_failure
  constructor
  · intro hc
    rw [if_pos (by simpa using hc)]
    exact ⟨rfl, rfl, rfl⟩
  · intro hc
    rw [if_neg (by simpa using hc)]
    exact ⟨h, rfl, rfl⟩

/-- C3 amended witness: the two regimes at concrete Half-Open breakers —
threshold 2 / count 1 reopens, threshold 2 / count 0 stays Half-Open. -/
theorem record_failure_in_half_open_witness :
    (({ halfOpenSample with failure_count := 1 } : CircuitBreaker).record_failure "boom" 710).state
      = CircuitState.Open
    ∧ (halfOpenSample.record_failure "boom" 710).state = CircuitState.HalfOpen := by
  have h1 := record_failure_in_half_open { halfOpenSample with failure_count := 1 } "boom" 710 rfl
  have h2 := record_failure_in_half_open halfOpenSample "boom" 710 rfl
  exact ⟨(h1.1 (by right; decide)).1, (h2.2 (by decide)).1⟩

/-- C10: `get_status` is not side-effect-free. Querying an Open breaker
whose timeout has elapsed moves it to Half-Open with `half_open_at = now`;
querying a Half-Open breaker whose half-open timeout has elapsed moves it
to Closed and zeroes `failure_count`. The reported
`remaining_time_seconds` (and `state` string) are computed from the state
as it was before this transition. -/
theorem get_status_lazy_transition (cb : CircuitBreaker) (now : Int) :
    (cb.state = CircuitState.Open → truthyTime cb.opened_at = true →
      now - cb.opened_at.getD 0 ≥ cb.timeout →
      (cb.get_status now).2.state = CircuitState.HalfOpen
      ∧ (cb.get_status now).2.half_open_at = some now
      ∧ (cb.get_status now).1.remaining_time_seconds
        = max 0 (cb.timeout - (now - cb.opened_at.getD 0))
      ∧ (cb.get_status now).1.state = "open"
      ∧ (cb.get_status now).1.failure_count = cb.failure_count)
    ∧ (cb.state = CircuitState.HalfOpen → truthyTime cb.half_open_at = true →
      now - cb.half_open_at.getD 0 ≥ cb.half_open_timeout →
      (cb.get_status now).2.state = CircuitState.Closed
      ∧ (cb.get_status now).2.failure_count = 0
      ∧ (cb.get_status now).1.remaining_time_seconds
        = max 0 (cb.half_open_timeout - (now - cb.half_open_at.getD 0))
      ∧ (cb.get_status now).1.state = "half_open") := by
  constructor
  · intro hs ht helapsed
    unfold CircuitBreaker.get_status CircuitBreaker.is_open
    rw [hs]
    simp [CircuitState.value, ht, helapsed]
  · intro hs ht helapsed
    unfold CircuitBreaker.get_status CircuitBreaker.is_open
    rw [hs]
    simp [CircuitState.value, ht, helapsed]

/-- C10 witness: status queries on an elapsed Open breaker and on an
elapsed Half-Open breaker, at concrete times. -/
theorem get_status_lazy_transition_witness :
    (({ halfOpenSample with state := .Open } : CircuitBreaker).get_status 700).2.state
      = CircuitState.HalfOpen
    ∧ (({ halfOpenSample with state := .Open } : CircuitBreaker).get_status 700).1.remaining_time_seconds
      = 0
    ∧ (halfOpenSample.get_status 760).2.state = CircuitState.Closed
    ∧ (halfOpenSample.get_status 760).1.state = "half_open" := by
  have h1 := (get_status_lazy_transition { halfOpenSample with state := .Open } 700).1
    rfl (by decide) (by decide)
  have h2 := (get_status_lazy_transition halfOpenSample 760).2
    rfl (by decide) (by decide)
  exact ⟨h1.1, by rw [h1.2.2.1]; decide, h2.1, h2.2.2.2⟩

/-- C9: the two cache lookups evaluate freshness independently against
separate TTLs via each key's stored write timestamp. A metadata entry
written at (positive clock) time `tw` is a hit for every lookup with
`now - tw < METADATA_TTL` — the metadata lookup never reads the stream-URL
entry, so this holds regardless of that entry's state. A stream-URL entry
written at time `tw` is a miss for every lookup with
`now - tw ≥ STREAM_URL_TTL`, whatever the (possibly still fresh) metadata
entry holds. -/
theorem cache_ttl_independence :
    (∀ (entry : KVEntry Metadata) (md : Metadata) (tw now : Int),
      entry.present = true → entry.timestamp = tw → 0 < tw →
      entry.value = some md → now - tw < METADATA_TTL →
      get_cached_metadata true entry now = some md)
    ∧ (∀ (entry : KVEntry String) (tw now : Int),
      entry.timestamp = tw → now - tw ≥ STREAM_URL_TTL →
      get_cached_stream_url true entry now = none) := by
  constructor
  · intro entry md tw now hp ht htp hv hfresh
    unfold get_cached_metadata
    rw [hp, hv, ht]
    simp only [Bool.true_eq_false, if_false]
    rw [if_pos ⟨htp, hfresh⟩]
  · intro entry tw now ht hstale
    unfold get_cached_stream_url
    rcases hp : entry.present with _ | _
    · simp
    · rw [ht]
      simp only [Bool.true_eq_false, if_false]
      by_cases htp : tw > 0
      · rw [if_pos htp, if_neg (by omega)]
      · rw [if_neg htp]

/-- C9 witness: a metadata entry written at time 10 is a hit at time 100;
a stream-URL entry written at time 10 is a miss at time 7210 = 10 + TTL. -/
theorem cache_ttl_independence_witness :
    get_cached_metadata true
      { present := true, timestamp := 10,
        value := some { title := some "T", artist := "A", duration := some 180,
                        thumbnail := some "th" } } 100
      = some { title := some "T", artist := "A", duration := some 180,
               thumbnail := some "th" }
    ∧ get_cached_stream_url true
        { present := true, timestamp := 10, value := some "https://u" } 7210
      = none := by
  exact ⟨cache_ttl_independence.1 _ _ 10 100 rfl rfl (by decide) rfl (by decide),
         cache_ttl_independence.2 _ 10 7210 rfl (by decide)⟩

/-- C1: with the circuit breaker reporting not-open and `bypass_cache`
false, a hit on both cache lookups makes `get_stream_url` return the merged
metadata and URL with `from_cache = true` and no extractor invocation; a
hit on the stream-URL lookup alone returns the URL without metadata, again
with `from_cache = true` and no extractor invocation. -/
theorem resolve_cache_short_circuit (cache_enabled : Bool)
    (extract : String → ExtractResult) (video_id : String) (now : Int) (w : World)
    (hopen : (w.breaker.is_open now).1 = false) :
    (∀ md u,
      get_cached_metadata cache_enabled (w.metaStore video_id) now = some md →
      get_cached_stream_url cache_enabled (w.urlStore video_id) now = some u →
      (get_stream_url cache_enabled extract video_id false now w).1
        = Except.ok { metadata := some md, url := u, from_cache := true }
      ∧ (get_stream_url cache_enabled extract video_id false now w).2.extractorCalls
        = w.extractorCalls)
    ∧ (∀ u,
      get_cached_metadata cache_enabled (w.metaStore video_id) now = none →
      get_cached_stream_url cache_enabled (w.urlStore video_id) now = some u →
      (get_stream_url cache_enabled extract video_id false now w).1
        = Except.ok { metadata := none, url := u, from_cache := true }
      ∧ (get_stream_url cache_enabled extract video_id false now w).2.extractorCalls
        = w.extractorCalls) := by
  constructor
  · intro md u hmd hurl
    unfold get_stream_url
    simp only [hopen, Bool.false_eq_true, if_false]
    rw [hmd, hurl]
    exact ⟨rfl, rfl⟩
  · intro u hmd hurl
    unfold get_stream_url
    simp only [hopen, Bool.false_eq_true, if_false]
    rw [hmd, hurl]
    exact ⟨rfl, rfl⟩

/-- C1 witness: a world with both entries fresh at time 100 and a breaker
in Closed state; the extractor is never consulted (its call counter stays
at 0). -/
theorem resolve_cache_short_circuit_witness :
    (get_stream_url true (fun _ => ExtractResult.raised "unused") "vid1" false 100
      { breaker := CircuitBreaker.init 2 600 60
        metaStore := fun _ =>
          { present := true, timestamp := 10,
            value := some { title := some "T", artist := "A", duration := some 180,
                            thumbnail := some "th" } }
        urlStore := fun _ => { present := true, timestamp := 10, value := some "https://u" }
        extractorCalls := 0
        failuresRecorded := 0 }).1
      = Except.ok { metadata := some { title := some "T", artist := "A",
                                       duration := some 180, thumbnail := some "th" },
                    url := "https://u", from_cache := true }
    ∧ (get_stream_url true (fun _ => ExtractResult.raised "unused") "vid1" false 100
      { breaker := CircuitBreaker.init 2 600 60
        metaStore := fun _ =>
          { present := true, timestamp := 10,
            value := some { title := some "T", artist := "A", duration := some 180,
                            thumbnail := some "th" } }
        urlStore := fun _ => { present := true, timestamp := 10, value := some "https://u" }
        extractorCalls := 0
        failuresRecorded := 0 }).2.extractorCalls = 0 := by
  have h := (resolve_cache_short_circuit true (fun _ => ExtractResult.raised "unused")
    "vid1" 100
    { breaker := CircuitBreaker.init 2 600 60
      metaStore := fun _ =>
        { present := true, timestamp := 10,
          value := some { title := some "T", artist := "A", duration := some 180,
                          thumbnail := some "th" } }
      urlStore := fun _ => { present := true, timestamp := 10, value := some "https://u" }
      extractorCalls := 0
      failuresRecorded := 0 } rfl).1
    { title := some "T", artist := "A", duration := some 180, thumbnail := some "th" }
    "https://u" (by decide) (by decide)
  exact ⟨h.1, h.2⟩

/-- C5: when the breaker reports open, `get_stream_url` fails with the
circuit-breaker error carrying the breaker's remaining-cooldown seconds
(and state string), the extractor is not invoked, and the whole world —
breaker included, since the blocking `is_open` branch does not mutate — is
unchanged. -/
theorem resolve_circuit_open (cache_enabled : Bool)
    (extract : String → ExtractResult) (video_id : String) (bypass_cache : Bool)
    (now : Int) (w : World)
    (hopen : (w.breaker.is_open now).1 = true) :
    (get_stream_url cache_enabled extract video_id bypass_cache now w).1
      = Except.error (.circuitBreaker (w.breaker.get_status now).1.remaining_time_seconds
          (w.breaker.get_status now).1.state)
    ∧ (get_stream_url cache_enabled extract video_id bypass_cache now w).2.breaker
      = w.breaker
    ∧ (get_stream_url cache_enabled extract video_id bypass_cache now w).2.metaStore
      = w.metaStore
    ∧ (get_stream_url cache_enabled extract video_id bypass_cache now w).2.urlStore
      = w.urlStore
    ∧ (get_stream_url cache_enabled extract video_id bypass_cache now w).2.extractorCalls
      = w.extractorCalls
    ∧ (get_stream_url cache_enabled extract video_id bypass_cache now w).2.failuresRecorded
      = w.failuresRecorded := by
  have hframe := is_open_true_frame w.breaker now hopen
  have hstatus := get_status_frame_of_blocked w.breaker now hopen
  unfold get_stream_url
  simp [hopen, hframe.1, hstatus]

/-- C5 witness: a breaker opened at time 100 with timeout 600, queried at
time 400 — the call fails with 300 seconds of remaining cooldown and
leaves the world unchanged. -/
theorem resolve_circuit_open_witness :
    (get_stream_url true (fun _ => ExtractResult.raised "unused") "vid1" false 400
      { breaker := { halfOpenSample with state := .Open }
        metaStore := fun _ => { present := false, timestamp := 0, value := none }
        urlStore := fun _ => { present := false, timestamp := 0, value := none }
        extractorCalls := 0
        failuresRecorded := 0 }).1
      = Except.error (.circuitBreaker 300 "open")
    ∧ (get_stream_url true (fun _ => ExtractResult.raised "unused") "vid1" false 400
      { breaker := { halfOpenSample with state := .Open }
        metaStore := fun _ => { present := false, timestamp := 0, value := none }
        urlStore := fun _ => { present := false, timestamp := 0, value := none }
        extractorCalls := 0
        failuresRecorded := 0 }).2.breaker
      = { halfOpenSample with state := .Open } := by
  have h := resolve_circuit_open true (fun _ => ExtractResult.raised "unused")
    "vid1" false 400
    { breaker := { halfOpenSample with state := .Open }
      metaStore := fun _ => { present := false, timestamp := 0, value := none }
      urlStore := fun _ => { present := false, timestamp := 0, value := none }
      extractorCalls := 0
      failuresRecorded := 0 } (by decide)
  refine ⟨?_, h.2.1⟩
  rw [h.1]
  rfl

/-- C4: reaching the extraction step (breaker not open, no stream-URL
cache hit or cache bypassed): a raised extractor exception whose message
matches a rate-limit signature records exactly one circuit-breaker failure
and fails with the rate-limit error carrying the post-recording breaker's
remaining-cooldown seconds; any other raised exception fails with the
external-service error recording no breaker failure; and a structurally
successful extraction without a usable audio stream also fails with the
external-service error recording no breaker failure (and leaving the
breaker untouched). -/
theorem resolve_extractor_failure (cache_enabled : Bool)
    (extract : String → ExtractResult) (video_id : String) (bypass_cache : Bool)
    (now : Int) (w : World)
    (hopen : (w.breaker.is_open now).1 = false)
    (hmiss : bypass_cache = true
      ∨ get_cached_stream_url cache_enabled (w.urlStore video_id) now = none) :
    (∀ msg, extract video_id = .raised msg → isRateLimitMessageService msg = true →
      (get_stream_url cache_enabled extract video_id bypass_cache now w).1
        = Except.error (.rateLimit
            ((((w.breaker.is_open now).2.record_failure msg now).get_status now).1.remaining_time_seconds))
      ∧ (get_stream_url cache_enabled extract video_id bypass_cache now w).2.failuresRecorded
        = w.failuresRecorded + 1)
    ∧ (∀ msg, extract video_id = .raised msg → isRateLimitMessageService msg = false →
      (get_stream_url cache_enabled extract video_id bypass_cache now w).1
        = Except.error .externalService
      ∧ (get_stream_url cache_enabled extract video_id bypass_cache now w).2.failuresRecorded
        = w.failuresRecorded
      ∧ (get_stream_url cache_enabled extract video_id bypass_cache now w).2.breaker
        = (w.breaker.is_open now).2)
    ∧ (∀ info, extract video_id = .ok info → truthyStr (selectAudioUrl info) = false →
      (get_stream_url cache_enabled extract video_id bypass_cache now w).1
        = Except.error .externalService
      ∧ (get_stream_url cache_enabled extract video_id bypass_cache now w).2.failuresRecorded
        = w.failuresRecorded
      ∧ (get_stream_url cache_enabled extract video_id bypass_cache now w).2.breaker
        = (w.breaker.is_open now).2) := by
  have hred : get_stream_url cache_enabled extract video_id bypass_cache now w
      = fetchFresh cache_enabled extract video_id now
          { breaker := (w.breaker.is_open now).2, metaStore := w.metaStore,
            urlStore := w.urlStore, extractorCalls := w.extractorCalls,
            failuresRecorded := w.failuresRecorded } := by
    unfold get_stream_url
    rcases hmiss with hb | hu
    · subst hb
      simp [hopen]
    · rcases hbc : bypass_cache with _ | _
      · rcases hmd : get_cached_metadata cache_enabled (w.metaStore video_id) now with _ | md
          <;> simp [hopen, hu, hmd]
      · simp [hopen]
  refine ⟨?_, ?_, ?_⟩
  · intro msg hx hrl
    rw [hred]
    unfold fetchFresh
    rw [hx]
    simp [hrl]
  · intro msg hx hrl
    rw [hred]
    unfold fetchFresh
    rw [hx]
    simp [hrl]
  · intro info hx hsel
    rw [hred]
    unfold fetchFresh
    rw [hx]
    rcases hs : selectAudioUrl info with _ | u
    · simp [hs]
    · have hue : u.data.isEmpty = true := by
        rw [hs] at hsel
        simpa [truthyStr] using hsel
      simp [hs, hue]

/-- C4 witness: over an empty cache with a Closed breaker, a "429" message
records one failure and yields the rate-limit error with the opened
breaker's full 600-second cooldown; "boom" yields the external-service
error with nothing recorded; an extraction with no formats at all yields
the external-service error with nothing recorded. -/
theorem resolve_extractor_failure_witness :
    (get_stream_url true (fun _ => ExtractResult.raised "HTTP Error 429") "vid1" false 50
      { breaker := CircuitBreaker.init 2 600 60
        metaStore := fun _ => { present := false, timestamp := 0, value := none }
        urlStore := fun _ => { present := false, timestamp := 0, value := none }
        extractorCalls := 0
        failuresRecorded := 0 }).1
      = Except.error (.rateLimit 600)
    ∧ (get_stream_url true (fun _ => ExtractResult.raised "HTTP Error 429") "vid1" false 50
      { breaker := CircuitBreaker.init 2 600 60
        metaStore := fun _ => { present := false, timestamp := 0, value := none }
        urlStore := fun _ => { present := false, timestamp := 0, value := none }
        extractorCalls := 0
        failuresRecorded := 0 }).2.failuresRecorded = 1
    ∧ (get_stream_url true (fun _ => ExtractResult.raised "boom") "vid1" false 50
      { breaker := CircuitBreaker.init 2 600 60
        metaStore := fun _ => { present := false, timestamp := 0, value := none }
        urlStore := fun _ => { present := false, timestamp := 0, value := none }
        extractorCalls := 0
        failuresRecorded := 0 }).1
      = Except.error .externalService
    ∧ (get_stream_url true
        (fun _ => ExtractResult.ok
          { formats := none, adaptive_formats := none, url := none, title := none,
            artist := none, uploader := none, duration := none, thumbnail := none })
        "vid1" false 50
      { breaker := CircuitBreaker.init 2 600 60
        metaStore := fun _ => { present := false, timestamp := 0, value := none }
        urlStore := fun _ => { present := false, timestamp := 0, value := none }
        extractorCalls := 0
        failuresRecorded := 0 }).2.failuresRecorded = 0 := by
  have h1 := (resolve_extractor_failure true (fun _ => ExtractResult.raised "HTTP Error 429")
    "vid1" false 50
    { breaker := CircuitBreaker.init 2 600 60
      metaStore := fun _ => { present := false, timestamp := 0, value := none }
      urlStore := fun _ => { present := false, timestamp := 0, value := none }
      extractorCalls := 0
      failuresRecorded := 0 } rfl (Or.inr rfl)).1 "HTTP Error 429" rfl (by decide)
  have h2 := (resolve_extractor_failure true (fun _ => ExtractResult.raised "boom")
    "vid1" false 50
    { breaker := CircuitBreaker.init 2 600 60
      metaStore := fun _ => { present := false, timestamp := 0, value := none }
      urlStore := fun _ => { present := false, timestamp := 0, value := none }
      extractorCalls := 0
      failuresRecorded := 0 } rfl (Or.inr rfl)).2.1 "boom" rfl (by decide)
  have h3 := (resolve_extractor_failure true
    (fun _ => ExtractResult.ok
      { formats := none, adaptive_formats := none, url := none, title := none,
        artist := none, uploader := none, duration := none, thumbnail := none })
    "vid1" false 50
    { breaker := CircuitBreaker.init 2 600 60
      metaStore := fun _ => { present := false, timestamp := 0, value := none }
      urlStore := fun _ => { present := false, timestamp := 0, value := none }
      extractorCalls := 0
      failuresRecorded := 0 } rfl (Or.inr rfl)).2.2
    { formats := none, adaptive_formats := none, url := none, title := none,
      artist := none, uploader := none, duration := none, thumbnail := none }
    rfl (by decide)
  refine ⟨?_, h1.2, h2.1, h3.2.1⟩
  rw [h1.1]
  rfl

/-- C6: format-selection precedence of the resolver (run with a Closed
breaker and `bypass_cache`, so extraction is reached): the first audio-only
entry of `formats` wins; failing that, the first audio-only entry of
`adaptive_formats`; failing that, a truthy top-level `url`; with none of
the three, the call fails with the external-service error. In particular a
result with one non-audio-only entry in `formats` and one audio-only entry
in `adaptive_formats` resolves to the adaptive entry's URL. -/
theorem resolve_format_precedence (cache_enabled : Bool)
    (extract : String → ExtractResult) (video_id : String) (now : Int) (w : World)
    (info : ExtractInfo)
    (hstate : w.breaker.state = CircuitState.Closed)
    (hx : extract video_id = ExtractResult.ok info) :
    (∀ f, (info.formats.getD []).find? isAudioOnly = some f →
      f.url.data.isEmpty = false →
      (get_stream_url cache_enabled extract video_id true now w).1
        = Except.ok { metadata := some (metadataOf info), url := f.url, from_cache := false })
    ∧ ((info.formats.getD []).find? isAudioOnly = none →
      ∀ g, (info.adaptive_formats.getD []).find? isAudioOnly = some g →
      g.url.data.isEmpty = false →
      (get_stream_url cache_enabled extract video_id true now w).1
        = Except.ok { metadata := some (metadataOf info), url := g.url, from_cache := false })
    ∧ ((info.formats.getD []).find? isAudioOnly = none →
      (info.adaptive_formats.getD []).find? isAudioOnly = none →
      ∀ u, info.url = some u → u.data.isEmpty = false →
      (get_stream_url cache_enabled extract video_id true now w).1
        = Except.ok { metadata := some (metadataOf info), url := u, from_cache := false })
    ∧ ((info.formats.getD []).find? isAudioOnly = none →
      (info.adaptive_formats.getD []).find? isAudioOnly = none →
      truthyStr info.url = false →
      (get_stream_url cache_enabled extract video_id true now w).1
        = Except.error .externalService)
    ∧ (∀ f g, isAudioOnly f = false → isAudioOnly g = true →
      g.url.data.isEmpty = false →
      info.formats = some [f] → info.adaptive_formats = some [g] →
      (get_stream_url cache_enabled extract video_id true now w).1
        = Except.ok { metadata := some (metadataOf info), url := g.url, from_cache := false }) := by
  have hnb : w.breaker.is_open now = (false, w.breaker) := by
    unfold CircuitBreaker.is_open
    rw [hstate]
  have hred : get_stream_url cache_enabled extract video_id true now w
      = fetchFresh cache_enabled extract video_id now
          { breaker := w.breaker, metaStore := w.metaStore,
            urlStore := w.urlStore, extractorCalls := w.extractorCalls,
            failuresRecorded := w.failuresRecorded } := by
    unfold get_stream_url
    simp [hnb]
  have hsuccess : ∀ u : String, selectAudioUrl info = some u → u.data.isEmpty = false →
      (get_stream_url cache_enabled extract video_id true now w).1
        = Except.ok { metadata := some (metadataOf info), url := u, from_cache := false } := by
    intro u hsel hune
    rw [hred]
    unfold fetchFresh
    rw [hx]
    simp [hsel, hune]
  refine ⟨?_, ?_, ?_, ?_, ?_⟩
  · intro f hfind hne
    refine hsuccess f.url ?_ hne
    unfold selectAudioUrl pickAudioFromFormats
    rw [hfind]
    simp [truthyStr, hne]
  · intro hfind1 g hfind2 hne
    refine hsuccess g.url ?_ hne
    unfold selectAudioUrl pickAudioFromFormats
    rw [hfind1, hfind2]
    simp [truthyStr, hne]
  · intro hfind1 hfind2 u hu hne
    refine hsuccess u ?_ hne
    unfold selectAudioUrl pickAudioFromFormats
    rw [hfind1, hfind2, hu]
    simp [truthyStr, hne]
  · intro hfind1 hfind2 hurl
    have hurl' := hurl
    simp only [truthyStr] at hurl'
    have hsel : selectAudioUrl info = none := by
      unfold selectAudioUrl pickAudioFromFormats
      rw [hfind1, hfind2]
      simp [truthyStr, hurl']
    rw [hred]
    unfold fetchFresh
    rw [hx]
    simp [hsel]
  · intro f g hf hg hne hforms hads
    have hfind1 : (info.formats.getD []).find? isAudioOnly = none := by
      rw [hforms]
      simp [List.find?, hf]
    have hfind2 : (info.adaptive_formats.getD []).find? isAudioOnly = some g := by
      rw [hads]
      simp [List.find?, hg]
    refine hsuccess g.url ?_ hne
    unfold selectAudioUrl pickAudioFromFormats
    rw [hfind1, hfind2]
    simp [truthyStr, hne]

/-- C6 witness: one non-audio entry in `formats` (video+audio) and one
audio-only opus entry in `adaptive_formats` — the resolver picks the
adaptive URL. -/
theorem resolve_format_precedence_witness :
    (get_stream_url true
      (fun _ => ExtractResult.ok
        { formats := some [{ acodec := some "mp4a", vcodec := some "avc1",
                             url := "https://x/video.mp4" }]
          adaptive_formats := some [{ acodec := some "opus", vcodec := some "none",
                                      url := "https://x/audio.m4a" }]
          url := none, title := some "T", artist := some "A", uploader := none,
          duration := some 180, thumbnail := some "th" })
      "vid1" true 50
      { breaker := CircuitBreaker.init 2 600 60
        metaStore := fun _ => { present := false, timestamp := 0, value := none }
        urlStore := fun _ => { present := false, timestamp := 0, value := none }
        extractorCalls := 0
        failuresRecorded := 0 }).1
      = Except.ok { metadata := some { title := some "T", artist := "A",
                                       duration := some 180, thumbnail := some "th" },
                    url := "https://x/audio.m4a", from_cache := false } := by
  have h := (resolve_format_precedence true
    (fun _ => ExtractResult.ok
      { formats := some [{ acodec := some "mp4a", vcodec := some "avc1",
                           url := "https://x/video.mp4" }]
        adaptive_formats := some [{ acodec := some "opus", vcodec := some "none",
                                    url := "https://x/audio.m4a" }]
        url := none, title := some "T", artist := some "A", uploader := none,
        duration := some 180, thumbnail := some "th" })
    "vid1" 50
    { breaker := CircuitBreaker.init 2 600 60
      metaStore := fun _ => { present := false, timestamp := 0, value := none }
      urlStore := fun _ => { present := false, timestamp := 0, value := none }
      extractorCalls := 0
      failuresRecorded := 0 }
    { formats := some [{ acodec := some "mp4a", vcodec := some "avc1",
                         url := "https://x/video.mp4" }]
      adaptive_formats := some [{ acodec := some "opus", vcodec := some "none",
                                  url := "https://x/audio.m4a" }]
      url := none, title := some "T", artist := some "A", uploader := none,
      duration := some 180, thumbnail := some "th" }
    rfl rfl).2.2.2.2
    { acodec := some "mp4a", vcodec := some "avc1", url := "https://x/video.mp4" }
    { acodec := some "opus", vcodec := some "none", url := "https://x/audio.m4a" }
    (by decide) (by decide) (by decide) rfl rfl
  rw [h]
  rfl

/-- A non-empty list always has a first-maximal element. -/
lemma firstMaxThumb_eq_none (l : List ThumbObj) (h : firstMaxThumb l = none) :
    l = [] := by
  cases l with
  | nil => rfl
  | cons a as =>
    unfold firstMaxThumb at h
    rcases hr : firstMaxThumb as with _ | u <;> rw [hr] at h
    · simp at h
    · by_cases hgt : thumbArea u > thumbArea a
      · simp [hgt] at h
      · simp [hgt] at h

/-- Helper: `firstMaxThumb` returns a member of the list whose area is maximal. -/
lemma firstMaxThumb_mem_max (l : List ThumbObj) (t : ThumbObj)
    (h : firstMaxThumb l = some t) :
    t ∈ l ∧ ∀ u ∈ l, thumbArea u ≤ thumbArea t := by
  induction l generalizing t with
  | nil => simp [firstMaxThumb] at h
  | cons a as ih =>
    unfold firstMaxThumb at h
    rcases hr : firstMaxThumb as with _ | u <;> rw [hr] at h
    · have has : as = [] := firstMaxThumb_eq_none as hr
      subst has
      simp at h
      subst h
      simp
    · by_cases hgt : thumbArea u > thumbArea a
      · simp [hgt] at h
        subst h
        obtain ⟨hmem, hmax⟩ := ih u hr
        refine ⟨List.mem_cons_of_mem a hmem, ?_⟩
        intro x hx
        rcases List.mem_cons.mp hx with hxa | hxs
        · subst hxa
          exact le_of_lt hgt
        · exact hmax x hxs
      · simp [hgt] at h
        subst h
        obtain ⟨_, hmax⟩ := ih u hr
        refine ⟨List.mem_cons_self _ _, ?_⟩
        intro x hx
        rcases List.mem_cons.mp hx with hxa | hxs
        · subst hxa
          exact le_refl _
        · exact le_trans (hmax x hxs) (not_lt.mp hgt)

/-- A truthy optional string is in particular present. -/
lemma isSome_of_truthyStr (x : Option String) (h : truthyStr x = true) :
    x.isSome = true := by
  cases x with
  | none => simp [truthyStr] at h
  | some s => rfl

/-- The only path on which `_get_best_thumbnail` yields `None` runs through
the identifier fallback: every other terminal returns a truthy value. -/
lemma fallback_none_of_best_none (item : Item)
    (h : get_best_thumbnail item = none) :
    fallbackThumbFromId item = none := by
  unfold get_best_thumbnail at h
  dsimp only at h
  rcases hbest : (if (item.thumbnails.getD []).isEmpty = false then
      match firstMaxThumb (item.thumbnails.getD []) with
      | some t => if truthyStr t.url = true then t.url else none
      | none => none
    else none) with _ | u
  · rw [hbest] at h
    dsimp only at h
    by_cases hth : truthyStr item.thumbnail = true
    · rw [if_pos hth] at h
      rw [h] at hth
      simp [truthyStr] at hth
    · rw [if_neg hth] at h
      rcases hl : item.thumbnails.getD [] with _ | ⟨t, ts⟩ <;> rw [hl] at h <;>
        dsimp only at h
      · exact h
      · by_cases hturl : truthyStr t.url = true
        · rw [if_pos hturl] at h
          rw [h] at hturl
          simp [truthyStr] at hturl
        · rw [if_neg hturl] at h
          exact h
  · rw [hbest] at h
    simp at h

/-- C8: three-tier thumbnail derivation. With a `thumbnails` list whose
first-maximal-area entry carries a truthy url, the result is that entry's
url (and the entry is a member of maximal `width*height`); with no (or an
empty) list and a truthy bare `thumbnail` string, the result is that
string; with neither, a truthy identifier resolves to the deterministic
`img.youtube.com` URL; and whenever a truthy identifier is known the
result is never `none`. -/
theorem best_thumbnail_three_tier (item : Item) :
    (∀ l t, item.thumbnails = some l → firstMaxThumb l = some t →
      (t ∈ l ∧ ∀ u ∈ l, thumbArea u ≤ thumbArea t)
      ∧ (∀ s, t.url = some s → s.data.isEmpty = false →
          get_best_thumbnail item = some s))
    ∧ ((item.thumbnails = none ∨ item.thumbnails = some []) →
      ∀ s, item.thumbnail = some s → s.data.isEmpty = false →
      get_best_thumbnail item = some s)
    ∧ ((item.thumbnails = none ∨ item.thumbnails = some []) →
      truthyStr item.thumbnail = false →
      ∀ v, pyOr item.videoId item.video_id = some v → v.data.isEmpty = false →
      get_best_thumbnail item
        = some ("https://img.youtube.com/vi/" ++ v ++ "/mqdefault.jpg"))
    ∧ (∀ v, pyOr item.videoId item.video_id = some v → v.data.isEmpty = false →
      (get_best_thumbnail item).isSome = true) := by
  refine ⟨?_, ?_, ?_, ?_⟩
  · intro l t hl ht
    refine ⟨firstMaxThumb_mem_max l t ht, ?_⟩
    intro s hs hne
    have hlne : l.isEmpty = false := by
      cases l with
      | nil => simp [firstMaxThumb] at ht
      | cons a as => rfl
    unfold get_best_thumbnail
    rw [hl]
    simp [hlne, ht, hs, truthyStr, hne]
  · intro hl s hs hne
    unfold get_best_thumbnail
    rcases hl with hl | hl <;> rw [hl] <;> simp [hs, truthyStr, hne]
  · intro hl hth v hv hne
    unfold get_best_thumbnail fallbackThumbFromId
    rcases hl with hl | hl <;> rw [hl] <;> simp [hth, hv, hne]
  · intro v hv hne
    rcases hres : get_best_thumbnail item with _ | s
    · have hfb := fallback_none_of_best_none item hres
      unfold fallbackThumbFromId at hfb
      rw [hv] at hfb
      dsimp only at hfb
      rw [if_neg (by rw [hne]; exact Bool.false_ne_true)] at hfb
      exact absurd hfb (by simp)
    · rfl

/-- C8 witness: the three tiers at concrete items — a two-entry list picks
the 10x10 entry's url, a bare string wins when the list is absent, and an
identifier-only item gets the derived URL (hence not `none`). -/
theorem best_thumbnail_three_tier_witness :
    get_best_thumbnail
      { videoId := none, video_id := none
        thumbnails := some [{ url := some "https://small", width := some 1, height := some 1 },
                            { url := some "https://big", width := some 10, height := some 10 }]
        thumbnail := none, stream_url := none, rest := [] }
      = some "https://big"
    ∧ get_best_thumbnail
        { videoId := none, video_id := none, thumbnails := none
          thumbnail := some "https://bare", stream_url := none, rest := [] }
      = some "https://bare"
    ∧ get_best_thumbnail
        { videoId := some "abc", video_id := none, thumbnails := none
          thumbnail := none, stream_url := none, rest := [] }
      = some "https://img.youtube.com/vi/abc/mqdefault.jpg"
    ∧ (get_best_thumbnail
        { videoId := some "abc", video_id := none, thumbnails := none
          thumbnail := none, stream_url := none, rest := [] }).isSome = true := by
  have h1 := ((best_thumbnail_three_tier
    { videoId := none, video_id := none
      thumbnails := some [{ url := some "https://small", width := some 1, height := some 1 },
                          { url := some "https://big", width := some 10, height := some 10 }]
      thumbnail := none, stream_url := none, rest := [] }).1
    [{ url := some "https://small", width := some 1, height := some 1 },
     { url := some "https://big", width := some 10, height := some 10 }]
    { url := some "https://big", width := some 10, height := some 10 }
    rfl (by decide)).2 "https://big" rfl (by decide)
  have h2 := (best_thumbnail_three_tier
    { videoId := none, video_id := none, thumbnails := none
      thumbnail := some "https://bare", stream_url := none, rest := [] }).2.1
    (Or.inl rfl) "https://bare" rfl (by decide)
  have h3 := (best_thumbnail_three_tier
    { videoId := some "abc", video_id := none, thumbnails := none
      thumbnail := none, stream_url := none, rest := [] }).2.2.1
    (Or.inl rfl) (by decide) "abc" (by decide) (by decide)
  have h4 := (best_thumbnail_three_tier
    { videoId := some "abc", video_id := none, thumbnails := none
      thumbnail := none, stream_url := none, rest := [] }).2.2.2
    "abc" (by decide) (by decide)
  exact ⟨h1, h2, h3, h4⟩

/-- Mapping two pointwise-equal functions over a list gives equal lists. -/
lemma map_congr_mem {α β : Type} (l : List α) (f g : α → β)
    (h : ∀ a ∈ l, f a = g a) : l.map f = l.map g := by
  induction l with
  | nil => rfl
  | cons a as ih =>
    simp only [List.map_cons]
    rw [h a (List.mem_cons_self a as), ih (fun x hx => h x (List.mem_cons_of_mem a hx))]

/-- Helper: `setThumb` does not touch the identifier fields. -/
lemma truthyId_setThumb (it : Item) : truthyId (setThumb it) = truthyId it := rfl

/-- A `None` result of `_get_best_thumbnail` implies the bare `thumbnail`
field was falsy (a truthy one would have been returned). -/
lemma thumb_falsy_of_best_none (it : Item) (h : get_best_thumbnail it = none) :
    truthyStr it.thumbnail = false := by
  unfold get_best_thumbnail at h
  dsimp only at h
  rcases hbest : (if (it.thumbnails.getD []).isEmpty = false then
      match firstMaxThumb (it.thumbnails.getD []) with
      | some t => if truthyStr t.url = true then t.url else none
      | none => none
    else none) with _ | u
  · rw [hbest] at h
    dsimp only at h
    by_cases hth : truthyStr it.thumbnail = true
    · rw [if_pos hth] at h
      rw [h] at hth
      simp [truthyStr] at hth
    · simpa using hth
  · rw [hbest] at h
    simp at h

/-- Helper: `_get_best_thumbnail` only reads the bare `thumbnail` field through its
truthiness, so replacing a falsy field by another falsy value changes
nothing. -/
lemma best_thumb_set_falsy (it : Item) (x : Option String)
    (hx : truthyStr x = false) (h : truthyStr it.thumbnail = false) :
    get_best_thumbnail { it with thumbnail := x } = get_best_thumbnail it := by
  simp [get_best_thumbnail, fallbackThumbFromId, hx, h]

/-- The final-loop thumbnail re-derivation of `enrich_items_with_streams`
is the identity: the item already carries the best thumbnail from step 1,
and when that is `None` re-deriving over the thumbnail-overwritten copy
yields `None` again. -/
lemma recompute_fix (it X : Item)
    (hXth : X.thumbnail = get_best_thumbnail it) :
    (if X.thumbnail = none then
      { X with thumbnail := get_best_thumbnail (setThumb it) }
    else X) = X := by
  by_cases hB : get_best_thumbnail it = none
  · rw [if_pos (by rw [hXth, hB])]
    have hBs : get_best_thumbnail (setThumb it) = get_best_thumbnail it := by
      have hrepl := best_thumb_set_falsy it none rfl (thumb_falsy_of_best_none it hB)
      unfold setThumb
      rw [hB, hrepl, hB]
    rw [hBs, ← hXth]
  · rw [if_neg (by rw [hXth]; exact hB)]

/-- C7: the batch pipeline is per-item: for any resolver outcome and any
item list (whose items do not already carry a `stream_url` key), enrichment
with stream URLs equals mapping `enrichSpec` over the input — so the
output has the same length and order as the input, an item whose
resolution failed simply lacks `stream_url`, the other items with truthy
identifiers get their resolved URL, and every field other than `thumbnail`
and `stream_url` is preserved. The pipeline function is total, so it never
raises. -/
theorem enrich_batch_isolation (res : String → Option String) (items : List Item)
    (h : ∀ it ∈ items, it.stream_url = none) :
    enrich_items_with_streams res items true = items.map (enrichSpec res)
    ∧ (enrich_items_with_streams res items true).length = items.length := by
  have key : ∀ it, truthyId it = none → enrichSpec res it = setThumb it := by
    intro it hid
    unfold enrichSpec setThumb
    rw [hid]
  have hmain : enrich_items_with_streams res items true
      = items.map (enrichSpec res) := by
    unfold enrich_items_with_streams
    rcases hemp : items.isEmpty with _ | _
    · simp only [hemp, Bool.false_eq_true, if_false, Bool.true_eq_false]
      rcases hvids : ((items.map setThumb).filterMap truthyId).isEmpty with _ | _
      · simp only [hvids, Bool.false_eq_true, if_false]
        rw [List.map_map]
        apply map_congr_mem
        intro it hmem
        dsimp only [Function.comp]
        rw [truthyId_setThumb]
        rcases hid : truthyId it with _ | v
        · dsimp only
          rw [key it hid]
          exact recompute_fix it (setThumb it) rfl
        · have hv_mem : v ∈ (items.map setThumb).filterMap truthyId :=
            List.mem_filterMap.mpr
              ⟨setThumb it, List.mem_map_of_mem _ hmem,
               by rw [truthyId_setThumb]; exact hid⟩
          dsimp only
          rw [if_pos hv_mem]
          rcases hres : res v with _ | u
          · dsimp only
            have hspec : enrichSpec res it = setThumb it := by
              unfold enrichSpec setThumb
              rw [hid]
              dsimp only
              rw [hres]
            rw [hspec]
            exact recompute_fix it (setThumb it) rfl
          · rcases hue : u.data.isEmpty with _ | _
            · simp only [hue, Bool.false_eq_true, if_false]
              have hspec : enrichSpec res it
                  = { setThumb it with stream_url := some u } := by
                unfold enrichSpec setThumb
                rw [hid]
                dsimp only
                rw [hres]
                dsimp only
                simp only [hue, Bool.false_eq_true, if_false]
              rw [hspec]
              exact recompute_fix it { setThumb it with stream_url := some u } rfl
            · simp only [hue, if_true]
              have hspec : enrichSpec res it = setThumb it := by
                unfold enrichSpec setThumb
                rw [hid]
                dsimp only
                rw [hres]
                dsimp only
                simp only [hue, if_true]
              rw [hspec]
              exact recompute_fix it (setThumb it) rfl
      · rw [if_pos rfl]
        apply map_congr_mem
        intro it hmem
        have hnil : (items.map setThumb).filterMap truthyId = [] :=
          List.isEmpty_iff.mp hvids
        have hid : truthyId it = none := by
          have h2 := List.filterMap_eq_nil_iff.mp hnil (setThumb it)
            (List.mem_map_of_mem _ hmem)
          rwa [truthyId_setThumb] at h2
        exact (key it hid).symm
    · have : items = [] := List.isEmpty_iff.mp hemp
      subst this
      simp
  refine ⟨hmain, ?_⟩
  rw [hmain, List.length_map]

/-- C7 witness: a two-item batch where the second item's resolution fails —
the pipeline returns both items in order, the first enriched with its
stream URL, the second without a `stream_url`, all other fields intact. -/
theorem enrich_batch_isolation_witness :
    enrich_items_with_streams
      (fun v => if v = "ok" then some "https://stream-ok" else none)
      [{ videoId := some "ok", video_id := none, thumbnails := none,
         thumbnail := some "https://thA", stream_url := none, rest := [("title", "Song A")] },
       { videoId := some "bad", video_id := none, thumbnails := none,
         thumbnail := none, stream_url := none, rest := [("title", "Song B")] }] true
      = [{ videoId := some "ok", video_id := none, thumbnails := none,
           thumbnail := some "https://thA", stream_url := some "https://stream-ok",
           rest := [("title", "Song A")] },
         { videoId := some "bad", video_id := none, thumbnails := none,
           thumbnail := some "https://img.youtube.com/vi/bad/mqdefault.jpg",
           stream_url := none, rest := [("title", "Song B")] }] := by
  have h := (enrich_batch_isolation
    (fun v => if v = "ok" then some "https://stream-ok" else none)
    [{ videoId := some "ok", video_id := none, thumbnails := none,
       thumbnail := some "https://thA", stream_url := none, rest := [("title", "Song A")] },
     { videoId := some "bad", video_id := none, thumbnails := none,
       thumbnail := none, stream_url := none, rest := [("title", "Song B")] }]
    (by simp)).1
  rw [h]
  rfl

end MusicServices
